import Mathlib

/-!
Verification of the cloudflare_exporter incremental ingestion engine.

Shallow embedding conventions:
* Go `time.Time` is modelled as `Int`: nanoseconds relative to Go's zero time
  (`time.Time{}`), so the zero value `0` is the "never set" sentinel, `t.After u`
  is `t > u`, and `t.Add d` is `t + d`.  Durations are `Int` nanoseconds.
* Go `float64` metric values are modelled as `Int`: every value the engine
  writes is `float64(n)` for a `uint64` count `n`, so all arithmetic performed
  is exact integer arithmetic and no rounding behaviour is lost.
* A record's RFC3339 `datetime` string is modelled by its parse result
  `Option Int`: `some t` for a string parsing to time `t`, `none` for a
  malformed string (`time.Parse` returning an error).
* Go maps with zero-value defaults are modelled as total functions
  (`String → Int` for the watermark maps, defaulting to the `0` sentinel;
  `String → String` for the zoneID → name map, defaulting to `""`).
-/

/-- One nanosecond-denominated second, mirroring Go's `time.Second`. -/
def secondNs : Int := 1000000000

/-- Go's `time.Minute` in nanoseconds. -/
def minuteNs : Int := 60 * secondNs

/-- Go's `time.Hour` in nanoseconds. -/
def hourNs : Int := 60 * minuteNs

/-- `metricsMaxAge = 15 * time.Minute` from the timestamped metric file. -/
def metricsMaxAge : Int := 15 * minuteNs

/-- State of one `TimestampedMetric` (desc and valueType omitted: they are
prometheus plumbing that no claim touches).  Zero values mirror Go's. -/
structure TimestampedMetric where
  value : Int := 0
  labelValues : List String := []
  timestamp : Int := 0
deriving DecidableEq, Repr

/-- `func (m *TimestampedMetric) Set(value float64, timestamp time.Time)`. -/
def TimestampedMetric.set (m : TimestampedMetric) (value : Int) (timestamp : Int) :
    TimestampedMetric :=
  { m with value := value, timestamp := timestamp }

/-- `func (m *TimestampedMetric) Add(value float64, timestamp time.Time)`. -/
def TimestampedMetric.add (m : TimestampedMetric) (value : Int) (timestamp : Int) :
    TimestampedMetric :=
  { m with value := m.value + value, timestamp := timestamp }

/-- `func (m *TimestampedMetric) Collect(...)`, with `now` the value of
`time.Now().UTC()` during the call.  Returns the emitted sample
`(value, timestamp)` or `none` when the staleness guard returns early.
Note the source substitutes `now` for a zero `m.timestamp` into the local
`timestamp`, but the staleness comparison reads the raw `m.timestamp`. -/
def TimestampedMetric.collect (m : TimestampedMetric) (now : Int) :
    Option (Int × Int) :=
  let timestamp := if m.timestamp = 0 then now else m.timestamp
  if now - metricsMaxAge > m.timestamp then none
  else some (m.value, timestamp)

/-- `func hashLabels(labels []string) string`.  The source returns the
hex-encoded SHA-1 of this `"!!!"`-joined string; since SHA-1 is a fixed
function of its input, two label lists receive the same map key whenever
their joins coincide, which is the property every claim uses.  We model the
key as the joined string itself. -/
def hashLabels (labels : List String) : String :=
  String.intercalate "!!!" labels

/-- State of a `TimestampedMetricVec`: its `metrics map[string]*TimestampedMetric`
keyed by `hashLabels`, modelled as a total function into `Option`. -/
structure TimestampedMetricVec where
  metrics : String → Option TimestampedMetric

/-- `NewTimestampedMetricVec`: starts with an empty metrics map. -/
def newTimestampedMetricVec : TimestampedMetricVec :=
  { metrics := fun _ => none }

/-- `func (m *TimestampedMetricVec) WithLabelValues(labelValues ...string)`.
Returns the (possibly just inserted) vec together with the point the Go
function returns a pointer to. -/
def TimestampedMetricVec.withLabelValues (m : TimestampedMetricVec)
    (labelValues : List String) : TimestampedMetricVec × TimestampedMetric :=
  let labelHash := hashLabels labelValues
  match m.metrics labelHash with
  | some metric => (m, metric)
  | none =>
    let metric : TimestampedMetric := { labelValues := labelValues }
    ({ metrics := fun k => if k = labelHash then some metric else m.metrics k },
     metric)

/-- `vec.WithLabelValues(ls...).Add(v, t)`: the Go caller mutates the shared
point through the returned pointer; modelled by writing the updated point
back at its key. -/
def TimestampedMetricVec.addWithLabelValues (m : TimestampedMetricVec)
    (labelValues : List String) (v : Int) (t : Int) : TimestampedMetricVec :=
  let p := (m.withLabelValues labelValues).2
  let m := (m.withLabelValues labelValues).1
  { metrics := fun k =>
      if k = hashLabels labelValues then some (p.add v t) else m.metrics k }

/-- C3: for a point that has been set or added with a genuine observation time
(timestamp not the zero sentinel), `Collect` emits a sample if and only if
that timestamp is not older than 15 minutes before the current time, and the
emitted sample carries exactly the recorded value and observation timestamp,
never the current time. -/
theorem collect_staleness_suppression (m : TimestampedMetric) (now : Int)
    (h : m.timestamp ≠ 0) :
    ((m.collect now).isSome ↔ now - metricsMaxAge ≤ m.timestamp) ∧
    (∀ v t, m.collect now = some (v, t) → v = m.value ∧ t = m.timestamp) := by
  unfold TimestampedMetric.collect
  simp only [if_neg h]
  constructor
  · by_cases hc : now - metricsMaxAge > m.timestamp
    · simp [hc]
      omega
    · simp [hc]
      omega
  · intro v t hvt
    by_cases hc : now - metricsMaxAge > m.timestamp
    · simp [hc] at hvt
    · simp [hc] at hvt
      exact ⟨hvt.1.symm, hvt.2.symm⟩

/-- Witness for C3: a point observed 5 minutes before `now` is emitted with its
own observation timestamp. -/
theorem collect_staleness_suppression_witness :
    ((1000 * minuteNs - 5 * minuteNs : Int) ≠ 0) ∧
    ((({ value := 30, labelValues := ["GB"],
         timestamp := 1000 * minuteNs - 5 * minuteNs } :
           TimestampedMetric).collect (1000 * minuteNs)).isSome ↔
       1000 * minuteNs - metricsMaxAge ≤ 1000 * minuteNs - 5 * minuteNs) ∧
    (∀ v t, ({ value := 30, labelValues := ["GB"],
               timestamp := 1000 * minuteNs - 5 * minuteNs } :
                 TimestampedMetric).collect (1000 * minuteNs) = some (v, t) →
        v = 30 ∧ t = 1000 * minuteNs - 5 * minuteNs) := by
  refine ⟨by decide, ?_⟩
  exact collect_staleness_suppression
    { value := 30, labelValues := ["GB"], timestamp := 1000 * minuteNs - 5 * minuteNs }
    (1000 * minuteNs) (by decide)

/-- C7 (code bug): a point never set (zero-sentinel timestamp) is emitted by
`Collect` as *nothing at all* whenever the current time is more than the
staleness window after the zero time — the staleness guard compares against
the raw stored `m.timestamp` rather than the substituted current time, so the
substitution is dead code and the point is suppressed, contradicting the
source's own comment that such points "should be stamped with the current
time".  Evaluated here at a concrete current time. -/
theorem collect_neverSet_suppressed :
    ({ value := 5, labelValues := [], timestamp := 0 } :
        TimestampedMetric).collect (1700000000 * secondNs) = none := by
  decide

/-- C10: `WithLabelValues` keys points by the joined label values.  Equal
label-value lists always reach the same accumulated point (the point is
created only when absent and an existing point is returned untouched), but
the keying is not injective: `["a!!!b"]` and `["a", "b"]` join to the same
string, so the two distinct label sets share one accumulated point — shown
concretely by two `Add`s through the two spellings landing on one point. -/
theorem withLabelValues_keying :
    (∀ (m : TimestampedMetricVec) (ls : List String) (p : TimestampedMetric),
       m.metrics (hashLabels ls) = some p → m.withLabelValues ls = (m, p)) ∧
    (∀ (m : TimestampedMetricVec) (ls : List String),
       m.metrics (hashLabels ls) = none →
         (m.withLabelValues ls).2 = { labelValues := ls } ∧
         (m.withLabelValues ls).1.metrics (hashLabels ls) =
           some { labelValues := ls }) ∧
    (hashLabels ["a!!!b"] = hashLabels ["a", "b"] ∧
       (["a!!!b"] : List String) ≠ ["a", "b"]) ∧
    ((newTimestampedMetricVec.addWithLabelValues ["a!!!b"] 5 10).addWithLabelValues
        ["a", "b"] 7 20).metrics (hashLabels ["a", "b"]) =
      some { value := 12, labelValues := ["a!!!b"], timestamp := 20 } := by
  refine ⟨?_, ?_, ⟨by decide, by decide⟩, by decide⟩
  · intro m ls p h
    unfold TimestampedMetricVec.withLabelValues
    simp only [h]
  · intro m ls h
    constructor
    · unfold TimestampedMetricVec.withLabelValues
      simp only [h]
    · unfold TimestampedMetricVec.withLabelValues
      simp only [h]
      simp

/-- Witness for C10: the two quantified conjuncts applied at a concrete vec —
a point already present under key `hashLabels ["x"]` is returned as-is, and an
absent key materialises a fresh zero point. -/
theorem withLabelValues_keying_witness :
    ((newTimestampedMetricVec.addWithLabelValues ["x"] 1 2).metrics
        (hashLabels ["x"]) =
      some { value := 1, labelValues := ["x"], timestamp := 2 }) ∧
    ((newTimestampedMetricVec.addWithLabelValues ["x"] 1 2).withLabelValues ["x"] =
      (newTimestampedMetricVec.addWithLabelValues ["x"] 1 2,
       { value := 1, labelValues := ["x"], timestamp := 2 })) ∧
    ((newTimestampedMetricVec.withLabelValues ["y"]).2 = { labelValues := ["y"] } ∧
     (newTimestampedMetricVec.withLabelValues ["y"]).1.metrics (hashLabels ["y"]) =
       some { labelValues := ["y"] }) := by
  refine ⟨by decide, ?_, ?_⟩
  · exact withLabelValues_keying.1
      (newTimestampedMetricVec.addWithLabelValues ["x"] 1 2) ["x"]
      { value := 1, labelValues := ["x"], timestamp := 2 } (by decide)
  · exact withLabelValues_keying.2.1 newTimestampedMetricVec ["y"] (by decide)

/-! ## Raw analytics response records (`zoneResp` in parsing.go) -/

/-- One entry of `Sum.CountryMap`. -/
structure CountryData where
  clientCountryName : String
  requests : Nat
  threats : Nat
  bytes : Nat
deriving DecidableEq, Repr

/-- One entry of `Sum.ClientHTTPVersionMap`. -/
structure HTTPVersionData where
  clientHTTPProtocol : String
  requests : Nat
deriving DecidableEq, Repr

/-- One entry of `Sum.ResponseStatusMap`. -/
structure ResponseStatusData where
  edgeResponseStatus : Int
  requests : Nat
deriving DecidableEq, Repr

/-- One entry of `Sum.ThreatPathingMap`. -/
structure ThreatPathingData where
  threatPathingName : String
  requests : Nat
deriving DecidableEq, Repr

/-- The `Sum` aggregate of one `httpRequests1mGroups` time bucket. -/
structure ReqGroupSum where
  countryMap : List CountryData
  cachedBytes : Nat
  cachedRequests : Nat
  clientHTTPVersionMap : List HTTPVersionData
  responseStatusMap : List ResponseStatusData
  threatPathingMap : List ThreatPathingData
deriving DecidableEq, Repr

/-- One `httpRequests1mGroups` time bucket; `datetime` is the parse result of
the `Dimensions.Datetime` RFC3339 string. -/
structure ReqGroup where
  datetime : Option Int
  sum : ReqGroupSum
deriving DecidableEq, Repr

/-- One `firewallEventsAdaptiveGroups` record. -/
structure FirewallEventGroup where
  count : Nat
  action : String
  datetime : Option Int
  edgeResponseStatus : Int
  originResponseStatus : Int
  ruleID : String
  source : String
deriving DecidableEq, Repr

/-- One `healthCheckEventsGroups` record. -/
structure HealthCheckEventsGroup where
  count : Nat
  datetime : Option Int
  failureReason : String
  healthCheckName : String
  healthStatus : String
  originResponseStatus : Int
  region : String
  scope : String
deriving DecidableEq, Repr

/-- `zoneResp`: one zone's page of analytics records. -/
structure ZoneResp where
  reqGroups : List ReqGroup
  firewallEventsAdaptiveGroups : List FirewallEventGroup
  healthCheckEventsGroups : List HealthCheckEventsGroup
  zoneTag : String
deriving DecidableEq, Repr

/-- The global `TimestampedMetricVec`s the extraction functions write to
(declared in the metrics file; one field per global variable used). -/
structure MetricsGlobals where
  httpCountryRequests : TimestampedMetricVec
  httpCountryThreats : TimestampedMetricVec
  httpCountryBytes : TimestampedMetricVec
  httpCachedRequests : TimestampedMetricVec
  httpCachedBytes : TimestampedMetricVec
  httpProtocolRequests : TimestampedMetricVec
  httpResponses : TimestampedMetricVec
  httpThreats : TimestampedMetricVec
  firewallEvents : TimestampedMetricVec
  healthCheckEvents : TimestampedMetricVec

/-- All-empty globals, as after `registerMetrics`. -/
def emptyMetricsGlobals : MetricsGlobals :=
  { httpCountryRequests := newTimestampedMetricVec
    httpCountryThreats := newTimestampedMetricVec
    httpCountryBytes := newTimestampedMetricVec
    httpCachedRequests := newTimestampedMetricVec
    httpCachedBytes := newTimestampedMetricVec
    httpProtocolRequests := newTimestampedMetricVec
    httpResponses := newTimestampedMetricVec
    httpThreats := newTimestampedMetricVec
    firewallEvents := newTimestampedMetricVec
    healthCheckEvents := newTimestampedMetricVec }

/-- `toString(i int) string` via `fmt.Sprintf` with a decimal verb; Lean's
decimal rendering of `Int` agrees with it. -/
def intLabel (i : Int) : String := toString i

/-- The writes of one qualifying `timeBucket` in `extractZoneHTTPRequests`
(the body of the `if bucketTime.After(lastDateTimeCounted)` branch), in
source order. -/
def applyHTTPBucket (zoneName : String) (bucketTime : Int) (g : MetricsGlobals)
    (sum : ReqGroupSum) : MetricsGlobals :=
  let g := sum.countryMap.foldl (fun g c =>
    { g with
      httpCountryRequests := g.httpCountryRequests.addWithLabelValues
        [zoneName, c.clientCountryName] c.requests bucketTime
      httpCountryThreats := g.httpCountryThreats.addWithLabelValues
        [zoneName, c.clientCountryName] c.threats bucketTime
      httpCountryBytes := g.httpCountryBytes.addWithLabelValues
        [zoneName, c.clientCountryName] c.bytes bucketTime }) g
  let g :=
    { g with
      httpCachedRequests := g.httpCachedRequests.addWithLabelValues
        [zoneName] sum.cachedRequests bucketTime
      httpCachedBytes := g.httpCachedBytes.addWithLabelValues
        [zoneName] sum.cachedBytes bucketTime }
  let g := sum.clientHTTPVersionMap.foldl (fun g v =>
    { g with
      httpProtocolRequests := g.httpProtocolRequests.addWithLabelValues
        [zoneName, v.clientHTTPProtocol] v.requests bucketTime }) g
  let g := sum.responseStatusMap.foldl (fun g r =>
    { g with
      httpResponses := g.httpResponses.addWithLabelValues
        [zoneName, intLabel r.edgeResponseStatus] r.requests bucketTime }) g
  sum.threatPathingMap.foldl (fun g t =>
    { g with
      httpThreats := g.httpThreats.addWithLabelValues
        [zoneName, t.threatPathingName] t.requests bucketTime }) g

/-- The `for _, timeBucket := range zone.ReqGroups` loop of
`extractZoneHTTPRequests`, threading the mutated globals and the running
`lastDateTimeCounted`. -/
def extractHTTPLoop (zoneName : String) (g : MetricsGlobals)
    (lastDateTimeCounted : Int) :
    List ReqGroup → Except String (MetricsGlobals × Int)
  | [] => .ok (g, lastDateTimeCounted)
  | timeBucket :: rest =>
    match timeBucket.datetime with
    | none => .error "parsing time"
    | some bucketTime =>
      if bucketTime > lastDateTimeCounted then
        extractHTTPLoop zoneName
          (applyHTTPBucket zoneName bucketTime g timeBucket.sum) bucketTime rest
      else
        extractHTTPLoop zoneName g lastDateTimeCounted rest

/-- `func extractZoneHTTPRequests(zone zoneResp, zoneNames map[string]string,
lastDateTimeCounted time.Time) (int, time.Time, error)`.  On success returns
the mutated globals, `len(zone.ReqGroups)` and the new high-water mark; the
values accompanying a Go error are discarded by the only caller, so the error
case carries just the error. -/
def extractZoneHTTPRequests (g : MetricsGlobals) (zone : ZoneResp)
    (zoneNames : String → String) (lastDateTimeCounted : Int) :
    Except String (MetricsGlobals × Nat × Int) :=
  match extractHTTPLoop (zoneNames zone.zoneTag) g lastDateTimeCounted
      zone.reqGroups with
  | .error e => .error e
  | .ok (g, last) => .ok (g, zone.reqGroups.length, last)

/-- The `for _, firewallEventGroup := range ...` loop of
`extractZoneFirewallEvents`. -/
def extractFirewallLoop (zoneName : String) (g : MetricsGlobals)
    (lastDateTimeCounted : Int) :
    List FirewallEventGroup → Except String (MetricsGlobals × Int)
  | [] => .ok (g, lastDateTimeCounted)
  | eg :: rest =>
    match eg.datetime with
    | none => .error "parsing time"
    | some eventTime =>
      if eventTime > lastDateTimeCounted then
        let fe := g.firewallEvents.addWithLabelValues
          [zoneName, eg.action, eg.source, eg.ruleID,
           intLabel eg.edgeResponseStatus, intLabel eg.originResponseStatus]
          eg.count eventTime
        extractFirewallLoop zoneName { g with firewallEvents := fe } eventTime rest
      else
        extractFirewallLoop zoneName g lastDateTimeCounted rest

/-- `func extractZoneFirewallEvents(...) (int, time.Time, error)`. -/
def extractZoneFirewallEvents (g : MetricsGlobals) (zone : ZoneResp)
    (zoneNames : String → String) (lastDateTimeCounted : Int) :
    Except String (MetricsGlobals × Nat × Int) :=
  match extractFirewallLoop (zoneNames zone.zoneTag) g lastDateTimeCounted
      zone.firewallEventsAdaptiveGroups with
  | .error e => .error e
  | .ok (g, last) => .ok (g, zone.firewallEventsAdaptiveGroups.length, last)

/-- The `for _, healthCheckEventsGroup := range ...` loop of
`extractZoneHealthCheckEvents`. -/
def extractHealthCheckLoop (zoneName : String) (g : MetricsGlobals)
    (lastDateTimeCounted : Int) :
    List HealthCheckEventsGroup → Except String (MetricsGlobals × Int)
  | [] => .ok (g, lastDateTimeCounted)
  | hg :: rest =>
    match hg.datetime with
    | none => .error "parsing time"
    | some eventTime =>
      if eventTime > lastDateTimeCounted then
        let hce := g.healthCheckEvents.addWithLabelValues
          [zoneName, hg.failureReason, hg.healthCheckName, hg.healthStatus,
           intLabel hg.originResponseStatus, hg.region, hg.scope]
          hg.count eventTime
        extractHealthCheckLoop zoneName { g with healthCheckEvents := hce }
          eventTime rest
      else
        extractHealthCheckLoop zoneName g lastDateTimeCounted rest

/-- `func extractZoneHealthCheckEvents(...) (int, time.Time, error)`. -/
def extractZoneHealthCheckEvents (g : MetricsGlobals) (zone : ZoneResp)
    (zoneNames : String → String) (lastDateTimeCounted : Int) :
    Except String (MetricsGlobals × Nat × Int) :=
  match extractHealthCheckLoop (zoneNames zone.zoneTag) g lastDateTimeCounted
      zone.healthCheckEventsGroups with
  | .error e => .error e
  | .ok (g, last) => .ok (g, zone.healthCheckEventsGroups.length, last)

/-! ## The windowed pagination fetch loop (`getZoneAnalyticsKind`) -/

/-- `apiMaxLimit = 10000`. -/
def apiMaxLimit : Nat := 10000

/-- `maxTimeWindow = time.Hour` (src/unnamed/part_002). -/
def maxTimeWindow : Int := hourNs

/-- The shape of `extractFunc`, with the mutated globals made explicit. -/
abbrev ExtractFunc := MetricsGlobals → ZoneResp → (String → String) → Int →
  Except String (MetricsGlobals × Nat × Int)

/-- The query anchor derived at the top of the inner loop: the stored
watermark, or `now - scrapeInterval` when the key holds the `time.Time{}`
sentinel (lazy initialisation on first sight of a key). -/
def derivedLastCounted (now scrapeInterval w : Int) : Int :=
  if w = 0 then now - scrapeInterval else w

/-- The watermark capping inlined in part_002's `getZoneAnalyticsKind`:
`if time.Since(last) > maxTimeWindow`, force the stored watermark to
`now - maxTimeWindow`.  The two separate `time.Now()` reads of the source are
modelled by the single instant `now`. -/
def capIfStale (now last : Int) : Int :=
  if now - last > maxTimeWindow then now - maxTimeWindow else last

/-- One iteration of the inner `for` loop of `getZoneAnalyticsKind` in
src/unnamed/part_002, for the zone keyed `zoneID` whose query returned the
page `zone`: derive the query anchor, run the extraction, store the (possibly
capped) new watermark under `zone.ZoneTag`, and report whether the loop
repeats for the same zone (`results < apiMaxLimit` breaks).  An extraction or
transport error is returned with the watermark map untouched, exactly as the
Go `return err` leaves the map. -/
def getZoneAnalyticsKindIteration (now scrapeInterval : Int) (g : MetricsGlobals)
    (lastSeenBucketTimes : String → Int) (zoneID : String) (zone : ZoneResp)
    (zoneNames : String → String) (extract : ExtractFunc) :
    (String → Int) × Except String (MetricsGlobals × Bool) :=
  let lastDateTimeCounted :=
    derivedLastCounted now scrapeInterval (lastSeenBucketTimes zoneID)
  match extract g zone zoneNames lastDateTimeCounted with
  | .error e => (lastSeenBucketTimes, .error e)
  | .ok (g, results, last) =>
    let stored := capIfStale now last
    (fun k => if k = zone.zoneTag then stored else lastSeenBucketTimes k,
     .ok (g, if results < apiMaxLimit then false else true))

/-- One iteration of the inner `for` loop of `getZoneAnalyticsKind` in
src/cloudflare_exporter.go: identical to the part_002 variant except that,
instead of the staleness cap, a page with zero results moves the stored
watermark forward by one scrape interval to bound the query window. -/
def getZoneAnalyticsKindIterationEmptyAdvance (now scrapeInterval : Int)
    (g : MetricsGlobals) (lastSeenBucketTimes : String → Int) (zoneID : String)
    (zone : ZoneResp) (zoneNames : String → String) (extract : ExtractFunc) :
    (String → Int) × Except String (MetricsGlobals × Bool) :=
  let lastDateTimeCounted :=
    derivedLastCounted now scrapeInterval (lastSeenBucketTimes zoneID)
  match extract g zone zoneNames lastDateTimeCounted with
  | .error e => (lastSeenBucketTimes, .error e)
  | .ok (g, results, last) =>
    let stored := if results = 0 then last + scrapeInterval else last
    (fun k => if k = zone.zoneTag then stored else lastSeenBucketTimes k,
     .ok (g, if results < apiMaxLimit then false else true))

/-! ## The scrape scheduler with additive backoff (`scrapeCloudflare`) -/

/-- The exporter's backoff state: `consecutiveRateLimitErrs` and
`skipNextScrapes` fields of the `exporter` struct in src/unnamed/part_002. -/
structure ScrapeState where
  consecutiveRateLimitErrs : Nat
  skipNextScrapes : Nat
deriving DecidableEq, Repr

/-- Outcome `scrapeCloudflareOnce` would produce if invoked on a tick. -/
inductive PassResult where
  | success
  | failure (msg : String)
deriving DecidableEq, Repr

/-- The crude rate-limit classification
`strings.Contains(err.Error(), "limit")`. -/
def isRateLimitErr (msg : String) : Bool :=
  decide ("limit".toList <:+: msg.toList)

/-- One `case <-ticker:` arm of the `scrapeCloudflare` loop in
src/unnamed/part_002.  `pass` is the outcome `scrapeCloudflareOnce` would
produce were it run on this tick; a skipped tick never consults it.  Returns
the new state and whether a pass actually ran. -/
def scrapeCloudflareTick (st : ScrapeState) (pass : PassResult) :
    ScrapeState × Bool :=
  if 0 < st.skipNextScrapes then
    ({ st with skipNextScrapes := st.skipNextScrapes - 1 }, false)
  else
    match pass with
    | .success => ({ consecutiveRateLimitErrs := 0, skipNextScrapes := 0 }, true)
    | .failure msg =>
      if isRateLimitErr msg then
        let c := st.consecutiveRateLimitErrs + 1
        ({ consecutiveRateLimitErrs := c, skipNextScrapes := c }, true)
      else (st, true)

/-- `n` consecutive ticks; used to run through a stretch of skipped ticks,
whose hypothetical pass outcome is never consulted. -/
def skipTicks : Nat → ScrapeState → ScrapeState
  | 0, st => st
  | n + 1, st => skipTicks n (scrapeCloudflareTick st .success).1

/-- The state after the k-th consecutive rate-limited pass failure starting
from the reset state, each failure followed by its full run of skipped ticks
before the next pass runs. -/
def afterRateLimitFailures (msg : String) : Nat → ScrapeState
  | 0 => { consecutiveRateLimitErrs := 0, skipNextScrapes := 0 }
  | k + 1 =>
    let st := afterRateLimitFailures msg k
    (scrapeCloudflareTick (skipTicks st.skipNextScrapes st) (.failure msg)).1

/-! ## Supporting lemmas about the extraction loops -/

theorem extractHTTPLoop_stale (zoneName : String) (w : Int) :
    ∀ (groups : List ReqGroup) (g : MetricsGlobals),
      (∀ tb ∈ groups, ∃ t, tb.datetime = some t ∧ t ≤ w) →
      extractHTTPLoop zoneName g w groups = .ok (g, w)
  | [], g, _ => rfl
  | tb :: rest, g, h => by
    obtain ⟨t, ht, hle⟩ := h tb (List.mem_cons_self tb rest)
    unfold extractHTTPLoop
    rw [ht]
    dsimp only
    rw [if_neg (by omega)]
    exact extractHTTPLoop_stale zoneName w rest g
      (fun x hx => h x (List.mem_cons_of_mem _ hx))

theorem extractFirewallLoop_stale (zoneName : String) (w : Int) :
    ∀ (groups : List FirewallEventGroup) (g : MetricsGlobals),
      (∀ eg ∈ groups, ∃ t, eg.datetime = some t ∧ t ≤ w) →
      extractFirewallLoop zoneName g w groups = .ok (g, w)
  | [], g, _ => rfl
  | eg :: rest, g, h => by
    obtain ⟨t, ht, hle⟩ := h eg (List.mem_cons_self eg rest)
    unfold extractFirewallLoop
    rw [ht]
    dsimp only
    rw [if_neg (by omega)]
    exact extractFirewallLoop_stale zoneName w rest g
      (fun x hx => h x (List.mem_cons_of_mem _ hx))

theorem extractHealthCheckLoop_stale (zoneName : String) (w : Int) :
    ∀ (groups : List HealthCheckEventsGroup) (g : MetricsGlobals),
      (∀ hg ∈ groups, ∃ t, hg.datetime = some t ∧ t ≤ w) →
      extractHealthCheckLoop zoneName g w groups = .ok (g, w)
  | [], g, _ => rfl
  | hg :: rest, g, h => by
    obtain ⟨t, ht, hle⟩ := h hg (List.mem_cons_self hg rest)
    unfold extractHealthCheckLoop
    rw [ht]
    dsimp only
    rw [if_neg (by omega)]
    exact extractHealthCheckLoop_stale zoneName w rest g
      (fun x hx => h x (List.mem_cons_of_mem _ hx))

theorem extractHTTPLoop_mono (zoneName : String) :
    ∀ (groups : List ReqGroup) (g : MetricsGlobals) (w : Int)
      (g2 : MetricsGlobals) (w2 : Int),
      extractHTTPLoop zoneName g w groups = .ok (g2, w2) → w ≤ w2 := by
  intro groups
  induction groups with
  | nil =>
    intro g w g2 w2 h
    unfold extractHTTPLoop at h
    simp at h
    omega
  | cons tb rest ih =>
    intro g w g2 w2 h
    unfold extractHTTPLoop at h
    cases ht : tb.datetime with
    | none => rw [ht] at h; exact absurd h (by simp)
    | some t =>
      rw [ht] at h
      dsimp only at h
      by_cases hgt : t > w
      · rw [if_pos hgt] at h
        have := ih _ t g2 w2 h
        omega
      · rw [if_neg hgt] at h
        exact ih _ w g2 w2 h

theorem extractFirewallLoop_mono (zoneName : String) :
    ∀ (groups : List FirewallEventGroup) (g : MetricsGlobals) (w : Int)
      (g2 : MetricsGlobals) (w2 : Int),
      extractFirewallLoop zoneName g w groups = .ok (g2, w2) → w ≤ w2 := by
  intro groups
  induction groups with
  | nil =>
    intro g w g2 w2 h
    unfold extractFirewallLoop at h
    simp at h
    omega
  | cons eg rest ih =>
    intro g w g2 w2 h
    unfold extractFirewallLoop at h
    cases ht : eg.datetime with
    | none => rw [ht] at h; exact absurd h (by simp)
    | some t =>
      rw [ht] at h
      dsimp only at h
      by_cases hgt : t > w
      · rw [if_pos hgt] at h
        have := ih _ t g2 w2 h
        omega
      · rw [if_neg hgt] at h
        exact ih _ w g2 w2 h

theorem extractHealthCheckLoop_mono (zoneName : String) :
    ∀ (groups : List HealthCheckEventsGroup) (g : MetricsGlobals) (w : Int)
      (g2 : MetricsGlobals) (w2 : Int),
      extractHealthCheckLoop zoneName g w groups = .ok (g2, w2) → w ≤ w2 := by
  intro groups
  induction groups with
  | nil =>
    intro g w g2 w2 h
    unfold extractHealthCheckLoop at h
    simp at h
    omega
  | cons hg rest ih =>
    intro g w g2 w2 h
    unfold extractHealthCheckLoop at h
    cases ht : hg.datetime with
    | none => rw [ht] at h; exact absurd h (by simp)
    | some t =>
      rw [ht] at h
      dsimp only at h
      by_cases hgt : t > w
      · rw [if_pos hgt] at h
        have := ih _ t g2 w2 h
        omega
      · rw [if_neg hgt] at h
        exact ih _ w g2 w2 h

theorem extractHTTPLoop_malformed (zoneName : String) :
    ∀ (groups : List ReqGroup) (g : MetricsGlobals) (w : Int),
      (∃ tb ∈ groups, tb.datetime = none) →
      extractHTTPLoop zoneName g w groups = .error "parsing time" := by
  intro groups
  induction groups with
  | nil =>
    intro g w h
    obtain ⟨tb, htb, _⟩ := h
    exact absurd htb (by simp)
  | cons tb rest ih =>
    intro g w h
    unfold extractHTTPLoop
    cases ht : tb.datetime with
    | none => rfl
    | some t =>
      have hrest : ∃ x ∈ rest, x.datetime = none := by
        obtain ⟨x, hx, hxnone⟩ := h
        rcases List.mem_cons.mp hx with heq | hmem
        · subst heq; rw [ht] at hxnone; exact absurd hxnone (by simp)
        · exact ⟨x, hmem, hxnone⟩
      dsimp only
      by_cases hgt : t > w
      · rw [if_pos hgt]
        exact ih _ t hrest
      · rw [if_neg hgt]
        exact ih _ w hrest

/-- A concrete page whose every record parses and sits at or before time 100. -/
def staleZone : ZoneResp :=
  { reqGroups := [
      { datetime := some 40,
        sum := { countryMap :=
                   [{ clientCountryName := "GB", requests := 10, threats := 1,
                      bytes := 100 }],
                 cachedBytes := 5, cachedRequests := 2,
                 clientHTTPVersionMap := [], responseStatusMap := [],
                 threatPathingMap := [] } }],
    firewallEventsAdaptiveGroups := [
      { count := 3, action := "block", datetime := some 30,
        edgeResponseStatus := 403, originResponseStatus := 0, ruleID := "r1",
        source := "waf" }],
    healthCheckEventsGroups := [
      { count := 2, datetime := some 99, failureReason := "", healthCheckName := "hc",
        healthStatus := "healthy", originResponseStatus := 200, region := "weur",
        scope := "o" }],
    zoneTag := "zone1" }

/-- C1: idempotent re-poll — if every record of the page parses to an
observation time at or before the watermark, each of the three extraction
functions performs no metric addition at all (the globals come back exactly
as passed) and returns the watermark unchanged, so only records strictly
newer than the watermark ever contribute deltas. -/
theorem idempotent_repoll (g : MetricsGlobals) (zone : ZoneResp)
    (zoneNames : String → String) (w : Int)
    (h1 : ∀ tb ∈ zone.reqGroups, ∃ t, tb.datetime = some t ∧ t ≤ w)
    (h2 : ∀ eg ∈ zone.firewallEventsAdaptiveGroups,
        ∃ t, eg.datetime = some t ∧ t ≤ w)
    (h3 : ∀ hg ∈ zone.healthCheckEventsGroups,
        ∃ t, hg.datetime = some t ∧ t ≤ w) :
    extractZoneHTTPRequests g zone zoneNames w =
      .ok (g, zone.reqGroups.length, w) ∧
    extractZoneFirewallEvents g zone zoneNames w =
      .ok (g, zone.firewallEventsAdaptiveGroups.length, w) ∧
    extractZoneHealthCheckEvents g zone zoneNames w =
      .ok (g, zone.healthCheckEventsGroups.length, w) := by
  refine ⟨?_, ?_, ?_⟩
  · unfold extractZoneHTTPRequests
    rw [extractHTTPLoop_stale _ _ _ _ h1]
  · unfold extractZoneFirewallEvents
    rw [extractFirewallLoop_stale _ _ _ _ h2]
  · unfold extractZoneHealthCheckEvents
    rw [extractHealthCheckLoop_stale _ _ _ _ h3]

/-- Witness for C1: re-polling the concrete fully-stale page `staleZone`
against watermark 100 adds nothing and keeps the watermark at 100. -/
theorem idempotent_repoll_witness :
    extractZoneHTTPRequests emptyMetricsGlobals staleZone (fun _ => "example.com")
      100 = .ok (emptyMetricsGlobals, staleZone.reqGroups.length, 100) ∧
    extractZoneFirewallEvents emptyMetricsGlobals staleZone (fun _ => "example.com")
      100 = .ok (emptyMetricsGlobals, staleZone.firewallEventsAdaptiveGroups.length, 100) ∧
    extractZoneHealthCheckEvents emptyMetricsGlobals staleZone (fun _ => "example.com")
      100 = .ok (emptyMetricsGlobals, staleZone.healthCheckEventsGroups.length, 100) := by
  refine idempotent_repoll emptyMetricsGlobals staleZone _ 100 ?_ ?_ ?_
  · intro tb htb
    simp only [staleZone, List.mem_singleton] at htb
    subst htb
    exact ⟨40, rfl, by decide⟩
  · intro eg heg
    simp only [staleZone, List.mem_singleton] at heg
    subst heg
    exact ⟨30, rfl, by decide⟩
  · intro hg hhg
    simp only [staleZone, List.mem_singleton] at hhg
    subst hhg
    exact ⟨99, rfl, by decide⟩

theorem extractZoneHTTPRequests_mono (g : MetricsGlobals) (zone : ZoneResp)
    (zoneNames : String → String) (w : Int) (g1 : MetricsGlobals) (r : Nat)
    (w1 : Int) (h : extractZoneHTTPRequests g zone zoneNames w = .ok (g1, r, w1)) :
    w ≤ w1 := by
  unfold extractZoneHTTPRequests at h
  cases hl : extractHTTPLoop (zoneNames zone.zoneTag) g w zone.reqGroups with
  | error e => rw [hl] at h; exact absurd h (by simp)
  | ok p =>
    obtain ⟨ga, wa⟩ := p
    rw [hl] at h
    dsimp only at h
    simp only [Except.ok.injEq, Prod.mk.injEq] at h
    obtain ⟨-, -, hw⟩ := h
    have hm := extractHTTPLoop_mono (zoneNames zone.zoneTag) zone.reqGroups g w ga wa hl
    omega

theorem extractZoneFirewallEvents_mono (g : MetricsGlobals) (zone : ZoneResp)
    (zoneNames : String → String) (w : Int) (g1 : MetricsGlobals) (r : Nat)
    (w1 : Int) (h : extractZoneFirewallEvents g zone zoneNames w = .ok (g1, r, w1)) :
    w ≤ w1 := by
  unfold extractZoneFirewallEvents at h
  cases hl : extractFirewallLoop (zoneNames zone.zoneTag) g w
      zone.firewallEventsAdaptiveGroups with
  | error e => rw [hl] at h; exact absurd h (by simp)
  | ok p =>
    obtain ⟨ga, wa⟩ := p
    rw [hl] at h
    dsimp only at h
    simp only [Except.ok.injEq, Prod.mk.injEq] at h
    obtain ⟨-, -, hw⟩ := h
    have hm := extractFirewallLoop_mono (zoneNames zone.zoneTag)
      zone.firewallEventsAdaptiveGroups g w ga wa hl
    omega

theorem extractZoneHealthCheckEvents_mono (g : MetricsGlobals) (zone : ZoneResp)
    (zoneNames : String → String) (w : Int) (g1 : MetricsGlobals) (r : Nat)
    (w1 : Int)
    (h : extractZoneHealthCheckEvents g zone zoneNames w = .ok (g1, r, w1)) :
    w ≤ w1 := by
  unfold extractZoneHealthCheckEvents at h
  cases hl : extractHealthCheckLoop (zoneNames zone.zoneTag) g w
      zone.healthCheckEventsGroups with
  | error e => rw [hl] at h; exact absurd h (by simp)
  | ok p =>
    obtain ⟨ga, wa⟩ := p
    rw [hl] at h
    dsimp only at h
    simp only [Except.ok.injEq, Prod.mk.injEq] at h
    obtain ⟨-, -, hw⟩ := h
    have hm := extractHealthCheckLoop_mono (zoneNames zone.zoneTag)
      zone.healthCheckEventsGroups g w ga wa hl
    omega

/-- The part_002 fetch iteration never moves any stored watermark backwards,
for any extraction function that only moves its high-water mark forwards. -/
theorem iteration_mono_of_extract_mono (now scrapeInterval : Int)
    (g : MetricsGlobals) (table : String → Int) (zoneID : String)
    (zone : ZoneResp) (zoneNames : String → String) (extract : ExtractFunc)
    (hmono : ∀ g0 w g1 r w1,
      extract g0 zone zoneNames w = .ok (g1, r, w1) → w ≤ w1)
    (htag : zone.zoneTag = zoneID) (hsi : scrapeInterval ≤ now) :
    ∀ k, table k ≤ (getZoneAnalyticsKindIteration now scrapeInterval g table
        zoneID zone zoneNames extract).1 k := by
  intro k
  unfold getZoneAnalyticsKindIteration
  dsimp only
  cases hx : extract g zone zoneNames
      (derivedLastCounted now scrapeInterval (table zoneID)) with
  | error e => exact le_refl _
  | ok res =>
    obtain ⟨g1, r, w1⟩ := res
    have hstart : table zoneID ≤
        derivedLastCounted now scrapeInterval (table zoneID) := by
      unfold derivedLastCounted
      split <;> omega
    have hw1 := hmono g (derivedLastCounted now scrapeInterval (table zoneID))
      g1 r w1 hx
    have hcap : w1 ≤ capIfStale now w1 := by
      unfold capIfStale
      split <;> omega
    dsimp only
    by_cases hk : k = zone.zoneTag
    · rw [if_pos hk, hk, htag]
      omega
    · rw [if_neg hk]

/-- C2: monotonic watermark — one iteration of part_002's fetch loop (for any
of the three datasets) leaves every key of the watermark table at a value
greater than or equal to its previous one: extraction only advances past
strictly-newer records, the staleness cap only fires when it moves the
watermark forward, and an error leaves the table untouched.  `htag` states
that the page echoes the queried zone (the query filters on `zoneID`), and
`hsi` that the process started after `time.Time{} + scrapeInterval`, so the
lazily derived first anchor is itself at or after the zero sentinel. -/
theorem monotonic_watermark (now scrapeInterval : Int) (g : MetricsGlobals)
    (table : String → Int) (zoneID : String) (zone : ZoneResp)
    (zoneNames : String → String)
    (htag : zone.zoneTag = zoneID) (hsi : scrapeInterval ≤ now) :
    (∀ k, table k ≤ (getZoneAnalyticsKindIteration now scrapeInterval g table
        zoneID zone zoneNames extractZoneHTTPRequests).1 k) ∧
    (∀ k, table k ≤ (getZoneAnalyticsKindIteration now scrapeInterval g table
        zoneID zone zoneNames extractZoneFirewallEvents).1 k) ∧
    (∀ k, table k ≤ (getZoneAnalyticsKindIteration now scrapeInterval g table
        zoneID zone zoneNames extractZoneHealthCheckEvents).1 k) := by
  refine ⟨?_, ?_, ?_⟩
  · exact iteration_mono_of_extract_mono now scrapeInterval g table zoneID zone
      zoneNames extractZoneHTTPRequests
      (fun g0 w g1 r w1 hx => extractZoneHTTPRequests_mono g0 zone zoneNames w g1 r w1 hx)
      htag hsi
  · exact iteration_mono_of_extract_mono now scrapeInterval g table zoneID zone
      zoneNames extractZoneFirewallEvents
      (fun g0 w g1 r w1 hx => extractZoneFirewallEvents_mono g0 zone zoneNames w g1 r w1 hx)
      htag hsi
  · exact iteration_mono_of_extract_mono now scrapeInterval g table zoneID zone
      zoneNames extractZoneHealthCheckEvents
      (fun g0 w g1 r w1 hx => extractZoneHealthCheckEvents_mono g0 zone zoneNames w g1 r w1 hx)
      htag hsi

/-- Witness for C2: a concrete iteration over the stale page from watermark 100
does not move the stored watermark of key "zone1" backwards. -/
theorem monotonic_watermark_witness :
    (fun _ : String => (100 : Int)) "zone1" ≤
      (getZoneAnalyticsKindIteration (3 * hourNs) hourNs emptyMetricsGlobals
        (fun _ => 100) "zone1" staleZone (fun _ => "example.com")
        extractZoneHTTPRequests).1 "zone1" :=
  (monotonic_watermark (3 * hourNs) hourNs emptyMetricsGlobals (fun _ => 100)
    "zone1" staleZone (fun _ => "example.com") rfl (by decide)).1 "zone1"

/-- A concrete page with no records at all. -/
def witnessEmptyZone : ZoneResp :=
  { reqGroups := [], firewallEventsAdaptiveGroups := [],
    healthCheckEventsGroups := [], zoneTag := "z" }

/-- C4: window capping — after extraction returns high-water mark `last`, the
part_002 iteration stores, under the page's zone tag, exactly
`now - maxTimeWindow` when `now - last` exceeds the one-hour maximum window,
and stores `last` exactly as extraction returned it otherwise. -/
theorem window_capping (now scrapeInterval : Int) (g : MetricsGlobals)
    (table : String → Int) (zoneID : String) (zone : ZoneResp)
    (zoneNames : String → String) (g1 : MetricsGlobals) (results : Nat)
    (last : Int)
    (hx : extractZoneHTTPRequests g zone zoneNames
        (derivedLastCounted now scrapeInterval (table zoneID)) =
      .ok (g1, results, last)) :
    (getZoneAnalyticsKindIteration now scrapeInterval g table zoneID zone
        zoneNames extractZoneHTTPRequests).1 zone.zoneTag =
      (if now - last > maxTimeWindow then now - maxTimeWindow else last) := by
  unfold getZoneAnalyticsKindIteration
  dsimp only
  rw [hx]
  dsimp only
  rw [if_pos rfl]
  unfold capIfStale
  rfl

/-- Witness for C4: with watermark 50 an hour-plus in the past the iteration
stores `now - maxTimeWindow`; with a fresh watermark it stores extraction's
return unchanged. -/
theorem window_capping_witness :
    ((getZoneAnalyticsKindIteration (3 * hourNs) hourNs emptyMetricsGlobals
        (fun _ => 50) "z" witnessEmptyZone (fun _ => "zone")
        extractZoneHTTPRequests).1 witnessEmptyZone.zoneTag =
      (if (3 * hourNs : Int) - 50 > maxTimeWindow then 3 * hourNs - maxTimeWindow
       else 50)) ∧
    ((getZoneAnalyticsKindIteration (3 * hourNs) hourNs emptyMetricsGlobals
        (fun _ => 3 * hourNs - 50) "z" witnessEmptyZone (fun _ => "zone")
        extractZoneHTTPRequests).1 witnessEmptyZone.zoneTag =
      (if (3 * hourNs : Int) - (3 * hourNs - 50) > maxTimeWindow
       then 3 * hourNs - maxTimeWindow else 3 * hourNs - 50)) :=
  ⟨window_capping (3 * hourNs) hourNs emptyMetricsGlobals (fun _ => 50) "z"
     witnessEmptyZone (fun _ => "zone") emptyMetricsGlobals 0 50 rfl,
   window_capping (3 * hourNs) hourNs emptyMetricsGlobals
     (fun _ => 3 * hourNs - 50) "z" witnessEmptyZone (fun _ => "zone")
     emptyMetricsGlobals 0 (3 * hourNs - 50) rfl⟩

theorem extractZoneHTTPRequests_results (g : MetricsGlobals) (zone : ZoneResp)
    (zoneNames : String → String) (w : Int) (g1 : MetricsGlobals) (r : Nat)
    (w1 : Int) (h : extractZoneHTTPRequests g zone zoneNames w = .ok (g1, r, w1)) :
    r = zone.reqGroups.length := by
  unfold extractZoneHTTPRequests at h
  cases hl : extractHTTPLoop (zoneNames zone.zoneTag) g w zone.reqGroups with
  | error e => rw [hl] at h; exact absurd h (by simp)
  | ok p =>
    obtain ⟨ga, wa⟩ := p
    rw [hl] at h
    dsimp only at h
    simp only [Except.ok.injEq, Prod.mk.injEq] at h
    exact h.2.1.symm

/-- C9: pagination repeat condition — a successful fetch iteration signals a
repeat of the query for the same entity exactly when the page's record count
reached `apiMaxLimit` (10000); a page with fewer records breaks the inner
loop.  The record count a page reports is `len(zone.ReqGroups)`. -/
theorem pagination_repeat (now scrapeInterval : Int) (g : MetricsGlobals)
    (table : String → Int) (zoneID : String) (zone : ZoneResp)
    (zoneNames : String → String) (g1 : MetricsGlobals) (continueFlag : Bool)
    (h : (getZoneAnalyticsKindIteration now scrapeInterval g table zoneID zone
        zoneNames extractZoneHTTPRequests).2 = .ok (g1, continueFlag)) :
    continueFlag = true ↔ apiMaxLimit ≤ zone.reqGroups.length := by
  unfold getZoneAnalyticsKindIteration at h
  dsimp only at h
  cases hx : extractZoneHTTPRequests g zone zoneNames
      (derivedLastCounted now scrapeInterval (table zoneID)) with
  | error e => rw [hx] at h; exact absurd h (by simp)
  | ok res =>
    obtain ⟨g2, r, w2⟩ := res
    rw [hx] at h
    dsimp only at h
    simp only [Except.ok.injEq, Prod.mk.injEq] at h
    have hr := extractZoneHTTPRequests_results g zone zoneNames _ g2 r w2 hx
    obtain ⟨-, hflag⟩ := h
    subst hr
    rw [← hflag]
    by_cases hlt : zone.reqGroups.length < apiMaxLimit
    · rw [if_pos hlt]
      simp
      omega
    · rw [if_neg hlt]
      simp
      omega

/-- Witness for C9: a zero-record page breaks the loop, and indeed zero is
below the page-size maximum. -/
theorem pagination_repeat_witness :
    ((getZoneAnalyticsKindIteration (3 * hourNs) hourNs emptyMetricsGlobals
        (fun _ => 50) "z" witnessEmptyZone (fun _ => "zone")
        extractZoneHTTPRequests).2 = .ok (emptyMetricsGlobals, false)) ∧
    (false = true ↔ apiMaxLimit ≤ witnessEmptyZone.reqGroups.length) :=
  ⟨rfl, pagination_repeat (3 * hourNs) hourNs emptyMetricsGlobals (fun _ => 50)
     "z" witnessEmptyZone (fun _ => "zone") emptyMetricsGlobals false rfl⟩

/-- C8: malformed-timestamp atomicity — when some record of the page has an
unparsable timestamp, the fetch iteration returns the error (which the callers
`getZoneAnalyticsKind`, `getZoneAnalytics` and `scrapeCloudflareOnce` pass up
to the scheduler loop unchanged) and the watermark table comes back exactly
as it was: the page is processed all-or-nothing. -/
theorem malformed_timestamp_atomicity (now scrapeInterval : Int)
    (g : MetricsGlobals) (table : String → Int) (zoneID : String)
    (zone : ZoneResp) (zoneNames : String → String)
    (h : ∃ tb ∈ zone.reqGroups, tb.datetime = none) :
    (getZoneAnalyticsKindIteration now scrapeInterval g table zoneID zone
        zoneNames extractZoneHTTPRequests).1 = table ∧
    ∃ e, (getZoneAnalyticsKindIteration now scrapeInterval g table zoneID zone
        zoneNames extractZoneHTTPRequests).2 = .error e := by
  have hx : extractZoneHTTPRequests g zone zoneNames
      (derivedLastCounted now scrapeInterval (table zoneID)) =
      .error "parsing time" := by
    unfold extractZoneHTTPRequests
    rw [extractHTTPLoop_malformed _ _ _ _ h]
  unfold getZoneAnalyticsKindIteration
  dsimp only
  rw [hx]
  exact ⟨rfl, "parsing time", rfl⟩

/-- A concrete page whose second record has an unparsable timestamp. -/
def malformedZone : ZoneResp :=
  { reqGroups := [
      { datetime := some 40,
        sum := { countryMap := [], cachedBytes := 0, cachedRequests := 0,
                 clientHTTPVersionMap := [], responseStatusMap := [],
                 threatPathingMap := [] } },
      { datetime := none,
        sum := { countryMap := [], cachedBytes := 0, cachedRequests := 0,
                 clientHTTPVersionMap := [], responseStatusMap := [],
                 threatPathingMap := [] } }],
    firewallEventsAdaptiveGroups := [], healthCheckEventsGroups := [],
    zoneTag := "zone1" }

/-- Witness for C8: the concrete page `malformedZone` errors the iteration and
leaves the watermark table untouched. -/
theorem malformed_timestamp_atomicity_witness :
    ((getZoneAnalyticsKindIteration (3 * hourNs) hourNs emptyMetricsGlobals
        (fun _ => 100) "zone1" malformedZone (fun _ => "example.com")
        extractZoneHTTPRequests).1 = fun _ => 100) ∧
    ∃ e, (getZoneAnalyticsKindIteration (3 * hourNs) hourNs emptyMetricsGlobals
        (fun _ => 100) "zone1" malformedZone (fun _ => "example.com")
        extractZoneHTTPRequests).2 = .error e :=
  malformed_timestamp_atomicity (3 * hourNs) hourNs emptyMetricsGlobals
    (fun _ => 100) "zone1" malformedZone (fun _ => "example.com")
    ⟨{ datetime := none,
       sum := { countryMap := [], cachedBytes := 0, cachedRequests := 0,
                clientHTTPVersionMap := [], responseStatusMap := [],
                threatPathingMap := [] } },
     by simp [malformedZone], rfl⟩

/-- C6 counterexample: in src/cloudflare_exporter.go's fetch loop an empty
page does not leave the watermark unchanged — with stored watermark 100 and
scrape interval 300 the iteration stores 400 for that key. -/
theorem emptyPage_watermark_counterexample :
    (getZoneAnalyticsKindIterationEmptyAdvance 1000000 300 emptyMetricsGlobals
        (fun _ => 100) "z" witnessEmptyZone (fun _ => "zone")
        extractZoneHTTPRequests).1 "z" = 400 ∧ (400 : Int) ≠ 100 :=
  ⟨rfl, by decide⟩

/-- C6 (amended): in src/cloudflare_exporter.go's fetch loop, a page none of
whose records is strictly newer than the (previously set) watermark leaves
extraction's returned watermark unchanged, and the iteration stores the table
unchanged at every key when such a page is non-empty; a page with zero
records instead advances the stored watermark by exactly one scrape interval,
to bound the growth of the query window. -/
theorem emptyOrStalePage_watermark (now scrapeInterval : Int)
    (g : MetricsGlobals) (table : String → Int) (zoneID : String)
    (zone : ZoneResp) (zoneNames : String → String)
    (htag : zone.zoneTag = zoneID) (hw : table zoneID ≠ 0)
    (hstale : ∀ tb ∈ zone.reqGroups, ∃ t, tb.datetime = some t ∧ t ≤ table zoneID) :
    (zone.reqGroups ≠ [] →
      ∀ k, (getZoneAnalyticsKindIterationEmptyAdvance now scrapeInterval g table
          zoneID zone zoneNames extractZoneHTTPRequests).1 k = table k) ∧
    (zone.reqGroups = [] →
      (getZoneAnalyticsKindIterationEmptyAdvance now scrapeInterval g table
          zoneID zone zoneNames extractZoneHTTPRequests).1 zoneID =
        table zoneID + scrapeInterval) := by
  have hderiv : derivedLastCounted now scrapeInterval (table zoneID) =
      table zoneID := by
    unfold derivedLastCounted
    rw [if_neg hw]
  have hx : extractZoneHTTPRequests g zone zoneNames
      (derivedLastCounted now scrapeInterval (table zoneID)) =
      .ok (g, zone.reqGroups.length, table zoneID) := by
    rw [hderiv]
    unfold extractZoneHTTPRequests
    rw [extractHTTPLoop_stale _ _ _ _ hstale]
  constructor
  · intro hne k
    unfold getZoneAnalyticsKindIterationEmptyAdvance
    dsimp only
    rw [hx]
    dsimp only
    rw [if_neg (fun h0 => hne (List.length_eq_zero.mp h0))]
    by_cases hk : k = zone.zoneTag
    · rw [if_pos hk, hk, htag]
    · rw [if_neg hk]
  · intro hemp
    unfold getZoneAnalyticsKindIterationEmptyAdvance
    dsimp only
    rw [hx]
    dsimp only
    simp only [hemp, List.length_nil]
    rw [if_pos htag.symm]
    simp

/-- Witness for C6 (amended): the non-empty fully-stale page `staleZone` keeps
the watermark at 100, and the empty page advances it to 100 + 300. -/
theorem emptyOrStalePage_watermark_witness :
    ((getZoneAnalyticsKindIterationEmptyAdvance 1000000 300 emptyMetricsGlobals
        (fun _ => 100) "zone1" staleZone (fun _ => "example.com")
        extractZoneHTTPRequests).1 "zone1" = 100) ∧
    ((getZoneAnalyticsKindIterationEmptyAdvance 1000000 300 emptyMetricsGlobals
        (fun _ => 100) "z" witnessEmptyZone (fun _ => "zone")
        extractZoneHTTPRequests).1 "z" = 100 + 300) := by
  constructor
  · exact (emptyOrStalePage_watermark 1000000 300 emptyMetricsGlobals
      (fun _ => 100) "zone1" staleZone (fun _ => "example.com") rfl (by decide)
      (by
        intro tb htb
        simp only [staleZone, List.mem_singleton] at htb
        subst htb
        exact ⟨40, rfl, by decide⟩)).1 (by simp [staleZone]) "zone1"
  · exact (emptyOrStalePage_watermark 1000000 300 emptyMetricsGlobals
      (fun _ => 100) "z" witnessEmptyZone (fun _ => "zone") rfl (by decide)
      (by intro tb htb; simp [witnessEmptyZone] at htb)).2 rfl

/-- Running exactly `n` ticks from a state with skip count `n` drains it to
zero without touching the rate-limit counter. -/
theorem skipTicks_drain (c : Nat) : ∀ n, skipTicks n ⟨c, n⟩ = ⟨c, 0⟩
  | 0 => rfl
  | n + 1 => by
    show skipTicks n (scrapeCloudflareTick ⟨c, n + 1⟩ .success).1 = ⟨c, 0⟩
    have ht : (scrapeCloudflareTick ⟨c, n + 1⟩ .success).1 = ⟨c, n⟩ := by
      unfold scrapeCloudflareTick
      rw [if_pos (Nat.succ_pos n)]
      rfl
    rw [ht]
    exact skipTicks_drain c n

/-- C5: additive backoff state machine — for any error message matching the
rate-limit condition, the k-th consecutive rate-limited pass failure (each
followed by its run of skipped ticks) sets the consecutive-rate-limit counter
to k and the skip count to k; a tick arriving while the skip count is
positive decrements it by one and runs no pass; and a successful pass resets
both counters to zero. -/
theorem additive_backoff (msg : String) (hmsg : isRateLimitErr msg = true) :
    (∀ k, afterRateLimitFailures msg k =
      { consecutiveRateLimitErrs := k, skipNextScrapes := k }) ∧
    (∀ (st : ScrapeState) (pass : PassResult), 0 < st.skipNextScrapes →
      scrapeCloudflareTick st pass =
        ({ st with skipNextScrapes := st.skipNextScrapes - 1 }, false)) ∧
    (∀ st : ScrapeState, st.skipNextScrapes = 0 →
      scrapeCloudflareTick st .success =
        ({ consecutiveRateLimitErrs := 0, skipNextScrapes := 0 }, true)) := by
  refine ⟨?_, ?_, ?_⟩
  · intro k
    induction k with
    | zero => rfl
    | succ k ih =>
      unfold afterRateLimitFailures
      rw [ih]
      dsimp only
      rw [skipTicks_drain]
      unfold scrapeCloudflareTick
      simp [hmsg]
  · intro st pass hpos
    unfold scrapeCloudflareTick
    rw [if_pos hpos]
  · intro st h0
    unfold scrapeCloudflareTick
    rw [if_neg (by omega)]

/-- Witness for C5: two consecutive rate-limited failures with a real-world
message reach counter 2, skip 2; a skipping tick decrements without running a
pass; a successful pass resets both counters. -/
theorem additive_backoff_witness :
    isRateLimitErr "graphql: limit reached, please try again later" = true ∧
    afterRateLimitFailures "graphql: limit reached, please try again later" 2 =
      { consecutiveRateLimitErrs := 2, skipNextScrapes := 2 } ∧
    scrapeCloudflareTick
        { consecutiveRateLimitErrs := 1, skipNextScrapes := 3 } .success =
      ({ consecutiveRateLimitErrs := 1, skipNextScrapes := 2 }, false) ∧
    scrapeCloudflareTick
        { consecutiveRateLimitErrs := 1, skipNextScrapes := 0 } .success =
      ({ consecutiveRateLimitErrs := 0, skipNextScrapes := 0 }, true) := by
  refine ⟨by decide, ?_, ?_, ?_⟩
  · exact (additive_backoff "graphql: limit reached, please try again later"
      (by decide)).1 2
  · exact (additive_backoff "graphql: limit reached, please try again later"
      (by decide)).2.1
      { consecutiveRateLimitErrs := 1, skipNextScrapes := 3 } .success (by decide)
  · exact (additive_backoff "graphql: limit reached, please try again later"
      (by decide)).2.2
      { consecutiveRateLimitErrs := 1, skipNextScrapes := 0 } (by decide)
